import Mathlib

/-!
Shallow embedding of the next-live deployment orchestrator
(api/src: utils.ts, gitService.ts, buildService.ts, servingService.ts,
processDeployment.ts).  External effects (database writes, filesystem,
docker, PM2, nginx) are abstracted into an oracle environment recording
the outcome of each interaction; the control flow, path construction and
string manipulation are translated from the TypeScript directly.
-/

namespace NextLive

/-- Characters matched by the ASCII part of the JavaScript regex class
for whitespace (space, tab, newline, carriage return, vertical tab,
form feed). -/
def isJsWhitespace (c : Char) : Bool :=
  c == ' ' || c == '\t' || c == '\n' || c == '\r' || c == Char.ofNat 11 || c == Char.ofNat 12

/-- Replace every maximal run of whitespace by a single hyphen; the Boolean
argument records whether the previous character was whitespace. -/
def wsRunsToHyphenAux : Bool → List Char → List Char
  | _, [] => []
  | prevWs, c :: cs =>
    if isJsWhitespace c then
      if prevWs then wsRunsToHyphenAux true cs
      else '-' :: wsRunsToHyphenAux true cs
    else c :: wsRunsToHyphenAux false cs

/-- Characters kept by the class of lowercase letters, digits and hyphen. -/
def isSubdomainChar (c : Char) : Bool :=
  (decide ('a' ≤ c) && decide (c ≤ 'z')) || (decide ('0' ≤ c) && decide (c ≤ '9')) || c == '-'

/-- Collapse every run of hyphens into a single hyphen. -/
def collapseHyphensAux : Bool → List Char → List Char
  | _, [] => []
  | prevHy, c :: cs =>
    if c == '-' then
      if prevHy then collapseHyphensAux true cs
      else '-' :: collapseHyphensAux true cs
    else c :: collapseHyphensAux false cs

/-- Drop leading and trailing hyphens. -/
def trimHyphens (l : List Char) : List Char :=
  ((l.dropWhile (fun c => c == '-')).reverse.dropWhile (fun c => c == '-')).reverse

/-- utils.ts sanitizeForSubdomain: lowercase, whitespace runs to hyphens,
drop characters outside lowercase letters, digits and hyphen, collapse
hyphen runs, trim leading and trailing hyphens, truncate. -/
def sanitizeForSubdomain (str : String) (maxLength : Nat) : String :=
  if str = "" then ""
  else
    String.mk (List.take maxLength (trimHyphens (collapseHyphensAux false
      (List.filter isSubdomainChar (wsRunsToHyphenAux false (str.data.map Char.toLower))))))

/-- Boolean test that the first list is a prefix of the second. -/
def listStartsWith : List Char → List Char → Bool
  | [], _ => true
  | _ :: _, [] => false
  | a :: as, b :: bs => a == b && listStartsWith as bs

/-- Boolean substring test (the needle occurs somewhere in the haystack). -/
def listContainsSub (needle : List Char) : List Char → Bool
  | [] => listStartsWith needle []
  | c :: cs => listStartsWith needle (c :: cs) || listContainsSub needle cs

/-- JavaScript String.prototype.includes. -/
def strIncludes (haystack needle : String) : Bool :=
  listContainsSub needle.data haystack.data

/-- ASCII lowercasing of a whole string. -/
def lowerStr (s : String) : String :=
  String.mk (s.data.map Char.toLower)

/-- gitService.ts cloneRepository: the clone directory inside the home
directory of the current user. -/
def cloneDir (homeDir : String) (deploymentId : Nat) : String :=
  homeDir ++ "/.next-live-clones/deployment-" ++ toString deploymentId ++ "-repo"

/-- gitService.ts cloneRepository: the destination handed to git clone. -/
def destinationPath (homeDir : String) (deploymentId : Nat) : String :=
  cloneDir homeDir deploymentId ++ "/repository"

/-- The arguments cloneRepository passes to git.clone. -/
structure CloneInvocation where
  urlArg : String
  destination : String
deriving DecidableEq, Repr

/-- gitService.ts cloneRepository: the repoUrl parameter is handed to
simple-git unchanged; the function performs no Git-account or token
lookup and no URL rewriting. -/
def cloneRepository (repoUrl : String) (homeDir : String) (deploymentId : Nat) : CloneInvocation :=
  { urlArg := repoUrl, destination := destinationPath homeDir deploymentId }

/-- buildService.ts DockerfileSource. -/
inductive DockerfileSource where
  | user
  | default_standalone
  | default_classic
  | user_classic_assumed
  | unknown
deriving DecidableEq, Repr

/-- String tag of a DockerfileSource, as interpolated into messages. -/
def DockerfileSource.tag : DockerfileSource → String
  | .user => "user"
  | .default_standalone => "default_standalone"
  | .default_classic => "default_classic"
  | .user_classic_assumed => "user_classic_assumed"
  | .unknown => "unknown"

/-- The facts about the cloned repository that buildService.ts inspects:
whether a root Dockerfile exists, the content of the first existing
next.config.js/.mjs/.ts (none when no such file exists), whether reading
that file succeeds, whether package.json exists, parses and lists next
among its dependencies or devDependencies, and whether the two default
Dockerfiles exist on disk. -/
structure RepoFs where
  hasDockerfile : Bool
  nextConfig : Option String
  nextConfigReadable : Bool
  packageJsonNext : Bool
  defaultStandaloneExists : Bool
  defaultClassicExists : Bool

/-- buildService.ts isNextProject: a next.config file, or a package.json
dependency on next (the package.json is only consulted when no config
file exists, which yields the same disjunction). -/
def isNextProject (r : RepoFs) : Bool :=
  r.nextConfig.isSome || r.packageJsonNext

def dquoteC : Char := Char.ofNat 34

def squoteC : Char := Char.ofNat 39

def backquoteC : Char := Char.ofNat 96

/-- A string wrapped in the given quote character. -/
def quoted (q : Char) (s : String) : String :=
  String.mk (q :: s.data ++ [q])

/-- buildService.ts standalone detection on the config file content:
a case-insensitive match for output: together with a standalone literal
in double quotes, single quotes or backticks (the standalone literal
check is on the original, non-lowercased content). -/
def declaresStandalone (configContent : String) : Bool :=
  strIncludes (lowerStr configContent) "output:" &&
    (strIncludes configContent (quoted dquoteC "standalone") ||
     strIncludes configContent (quoted squoteC "standalone") ||
     strIncludes configContent (quoted backquoteC "standalone"))

/-- buildService.ts isStandaloneUser / useStandaloneDefaultDockerfile:
false when there is no config file, or reading it fails. -/
def configSaysStandalone (r : RepoFs) : Bool :=
  match r.nextConfig with
  | some content => r.nextConfigReadable && declaresStandalone content
  | none => false

def DEFAULT_STANDALONE_DOCKERFILE_PATH : String :=
  "dockerfiles/Dockerfile.nextjs.standalone.default"

def DEFAULT_CLASSIC_DOCKERFILE_PATH : String :=
  "dockerfiles/Dockerfile.nextjs.classic.default"

/-- buildService.ts: path of a user-provided Dockerfile at the repo root. -/
def userDockerfilePath (repoPath : String) : String :=
  repoPath ++ "/Dockerfile"

/-- buildService.ts Dockerfile selection: a user Dockerfile wins (with the
source tag refined by the Next.js standalone hint); otherwise a detected
Next.js project selects one of the two defaults (failing when the chosen
default is missing on disk); otherwise the build is rejected. -/
def selectDockerfile (repoPath : String) (r : RepoFs) : Except String (String × DockerfileSource) :=
  if r.hasDockerfile then
    if isNextProject r then
      .ok (userDockerfilePath repoPath,
        if configSaysStandalone r then .user else .user_classic_assumed)
    else
      .ok (userDockerfilePath repoPath, .user)
  else if isNextProject r then
    if configSaysStandalone r then
      if r.defaultStandaloneExists then
        .ok (DEFAULT_STANDALONE_DOCKERFILE_PATH, .default_standalone)
      else
        .error ("Default Next.js standalone Dockerfile is missing on the server at: " ++
          DEFAULT_STANDALONE_DOCKERFILE_PATH)
    else
      if r.defaultClassicExists then
        .ok (DEFAULT_CLASSIC_DOCKERFILE_PATH, .default_classic)
      else
        .error ("Default Next.js classic Dockerfile is missing on the server at: " ++
          DEFAULT_CLASSIC_DOCKERFILE_PATH ++
          ". Please create this Dockerfile to support classic Next.js builds.")
  else
    .error ("Build failed for " ++ repoPath ++
      ": No Dockerfile found in the repository root, and it could not be identified as a Next.js project for default Dockerfile selection.")

/-- buildService.ts: the argument vector of the docker build invocation. -/
def dockerBuildArgs (imageName dockerfilePath : String) (buildArgs : List (String × String))
    (buildContext : String) : List String :=
  ["build", "-t", imageName, "-f", dockerfilePath] ++
    (buildArgs.flatMap fun kv => ["--build-arg", kv.1 ++ "=" ++ kv.2]) ++ [buildContext]

/-- buildService.ts fullErrorDetails on a non-zero docker exit: the entire
stdout and stderr buffers are embedded, with no truncation. -/
def buildFailureMessage (src : DockerfileSource) (args : List String) (exitCode : Nat)
    (stdoutBuffer stderrBuffer : String) : String :=
  "Docker build failed (Using " ++ src.tag ++ " Dockerfile).\nCommand: docker " ++
    String.intercalate " " args ++ "\nExit Code: " ++ toString exitCode ++
    "\nStdout:\n" ++ stdoutBuffer ++ "\nStderr:\n" ++ stderrBuffer

/-- buildService.ts buildProjectImage: Dockerfile selection followed by the
docker build, whose exit code and output buffers come from the oracle. -/
def buildProjectImage (repoPath imageName : String) (buildArgs : List (String × String))
    (r : RepoFs) (exitCode : Nat) (stdoutBuffer stderrBuffer : String) :
    Except String DockerfileSource :=
  match selectDockerfile repoPath r with
  | .error e => .error e
  | .ok (dockerfilePathToUse, dockerfileSource) =>
    if exitCode = 0 then .ok dockerfileSource
    else .error (buildFailureMessage dockerfileSource
      (dockerBuildArgs imageName dockerfilePathToUse buildArgs repoPath)
      exitCode stdoutBuffer stderrBuffer)

def DEPLOYMENT_PORT_RANGE_START : Nat := 4001

def DEPLOYMENT_PORT_RANGE_END : Nat := 4999

/-- servingService.ts findFreePort loop body: scan ascending from port with
the given number of remaining candidates; probe is the outcome of the
bind-and-listen check on each port. -/
def findFreePortAux (probe : Nat → Bool) : Nat → Nat → Option Nat
  | _, 0 => none
  | port, fuel + 1 => if probe port then some port else findFreePortAux probe (port + 1) fuel

/-- servingService.ts findFreePort: ascending scan of the closed range;
when the loop finishes without a free port it throws. -/
def findFreePort (probe : Nat → Bool) (startPort endPort : Nat) : Except String Nat :=
  match findFreePortAux probe startPort (endPort + 1 - startPort) with
  | some port => .ok port
  | none => .error ("No free ports found in range " ++ toString startPort ++ "-" ++ toString endPort)

/-- processDeployment.ts buildType values. -/
inductive BuildType where
  | standalone
  | classic
deriving DecidableEq, Repr

/-- Oracle for servingService.ts: the port probe outcomes, the filesystem
checks on the build output, and the PM2 interaction outcomes. -/
structure ServeEnv where
  probe : Nat → Bool
  serverJsExists : Bool
  packageJsonExists : Bool
  dotNextExists : Bool
  pm2ConnectOk : Bool
  pm2StartOk : Bool
  pm2Status : String

/-- servingService.ts startApplicationWithPm2 tail: connect, delete-if-exists
(never fatal), start, then accept only an online status. -/
def pm2Start (env : ServeEnv) (deploymentId : Nat) : Except String Unit :=
  if env.pm2ConnectOk then
    if env.pm2StartOk then
      if env.pm2Status = "online" then .ok ()
      else .error ("PM2 process deploy-" ++ toString deploymentId ++
        " started but is not online (status: " ++ env.pm2Status ++ "). Check PM2 logs.")
    else .error ("Failed to start application process deploy-" ++ toString deploymentId ++ " with PM2")
  else .error "Failed to connect to PM2 daemon"

/-- servingService.ts startApplicationWithPm2: prerequisite checks per build
type, then the PM2 start. -/
def startApplicationWithPm2 (env : ServeEnv) (deploymentId : Nat) (buildType : BuildType) :
    Except String Unit :=
  match buildType with
  | .standalone =>
    if env.serverJsExists then pm2Start env deploymentId
    else .error "Application entry point server.js not found at expected path for standalone build"
  | .classic =>
    if env.packageJsonExists && env.dotNextExists then pm2Start env deploymentId
    else .error "Classic Next.js build output is incomplete. Cannot find package.json or .next folder."

/-- servingService.ts startApplication: one findFreePort call, one PM2 start,
any error rethrown wrapped.  There is no retry loop around either step. -/
def startApplication (env : ServeEnv) (deploymentId : Nat) (buildType : BuildType) :
    Except String Nat :=
  match findFreePort env.probe DEPLOYMENT_PORT_RANGE_START DEPLOYMENT_PORT_RANGE_END with
  | .error e => .error ("Failed during application serving setup for deployment " ++
      toString deploymentId ++ ": " ++ e)
  | .ok port =>
    match startApplicationWithPm2 env deploymentId buildType with
    | .error e => .error ("Failed during application serving setup for deployment " ++
        toString deploymentId ++ ": " ++ e)
    | .ok _ => .ok port

/-- processDeployment.ts URL candidate of one minting attempt. -/
def mintAttemptUrl (baseSubdomainPart randomString yourPlatformUrl : String) : String :=
  "https://" ++ baseSubdomainPart ++ "-" ++ randomString ++ "." ++ yourPlatformUrl

/-- processDeployment.ts URL generation loop: up to fuel attempts, consuming
one random suffix per attempt, accepting the first candidate not already
taken by an active deployment. -/
def mintLoop (base domain : String) (randoms : Nat → String) (taken : String → Bool) :
    Nat → Nat → Option String
  | _, 0 => none
  | attempt, fuel + 1 =>
    let url := mintAttemptUrl base (randoms attempt) domain
    if taken url then mintLoop base domain randoms taken (attempt + 1) fuel
    else some url

def MAX_URL_GENERATION_ATTEMPTS : Nat := 5

/-- JavaScript .replace of a single trailing hyphen. -/
def stripTrailingHyphen (s : String) : String :=
  match s.data.reverse with
  | '-' :: rest => String.mk rest.reverse
  | _ => s

/-- processDeployment.ts production URL generation: sanitized project name
with one trailing hyphen stripped, five uniqueness attempts, then the
deploy-id fallback; none models the fatal throw when even the fallback
collides. -/
def generateDeploymentUrl (projectName : String) (deploymentId : Nat) (yourPlatformUrl : String)
    (randoms : Nat → String) (taken : String → Bool) : Option String :=
  let baseSubdomainPart := stripTrailingHyphen (sanitizeForSubdomain projectName 20)
  match mintLoop baseSubdomainPart yourPlatformUrl randoms taken 0 MAX_URL_GENERATION_ATTEMPTS with
  | some url => some url
  | none =>
    let fallback := "https://deploy-" ++ toString deploymentId ++ "." ++ yourPlatformUrl
    if taken fallback then none else some fallback

/-- Deployment.status values. -/
inductive Status where
  | pending
  | deploying
  | success
  | failed
deriving DecidableEq, Repr

/-- The Deployment row fields touched by processDeployment.ts
(deploymentUrl is a non-null text column initialised to the empty
string by the creating resolver). -/
structure Row where
  status : Status
  logFilePath : Option String
  deploymentUrl : String
  internalPort : Option Nat
  buildOutputPath : Option String
  dockerfileUsed : DockerfileSource
  errorMessage : Option String
deriving DecidableEq, Repr

/-- Oracle for processDeployment.ts: configuration, the outcome of every
database write and external step, and the error text carried by each
failing step. -/
structure Env where
  homeDir : String
  baseDeploymentDir : String
  yourPlatformUrl : Option String
  projectId : Nat
  projectName : String
  gitRepoUrl : String
  updateDeployingOk : Bool
  prepOk : Bool
  prepErrMsg : String
  cloneOk : Bool
  cloneErrMsg : String
  repo : RepoFs
  buildExitCode : Nat
  buildStdout : String
  buildStderr : String
  extractOk : Bool
  extractErrMsg : String
  serve : ServeEnv
  randoms : Nat → String
  taken : String → Bool
  updateUrlOk : Bool
  nginxOk : Bool
  nginxErrMsg : String
  updateSuccessOk : Bool
  updateFailedOk : Bool
  dbErrMsg : String

/-- State accumulated by one processDeployment run: the final row, how
often startApplication was invoked, and the directories passed to
cleanUpCloneDirectory. -/
structure RunState where
  row : Row
  startAttempts : Nat
  cloneCleanups : List String
deriving DecidableEq, Repr

/-- Observable outcome of one processDeployment run: the run state plus
whether the returned promise resolved. -/
structure Trace where
  row : Row
  startAttempts : Nat
  cloneCleanups : List String
  resolved : Bool
deriving DecidableEq, Repr

/-- processDeployment.ts deploymentWorkingDir. -/
def deploymentWorkingDir (env : Env) (deploymentId : Nat) : String :=
  env.baseDeploymentDir ++ "/" ++ toString deploymentId

/-- processDeployment.ts buildOutputPath. -/
def buildOutputPathOf (env : Env) (deploymentId : Nat) : String :=
  deploymentWorkingDir env deploymentId ++ "/build-output"

/-- processDeployment.ts logFilePath. -/
def logFilePathOf (env : Env) (deploymentId : Nat) : String :=
  deploymentWorkingDir env deploymentId ++ "/deployment-" ++ toString deploymentId ++ ".log"

/-- processDeployment.ts wsl2CloneBaseDir, the directory handed to
cleanUpCloneDirectory: note the .code-catalyst-clones segment, while
gitService.ts clones under .next-live-clones. -/
def wsl2CloneBaseDir (homeDir : String) (deploymentId : Nat) : String :=
  homeDir ++ "/.code-catalyst-clones/deployment-" ++ toString deploymentId ++ "-repo"

/-- processDeployment.ts URL decision: in production mode the generated
unique URL (fatal when even the fallback collides), in development mode
the localhost URL on the internal port. -/
def computeUrl (env : Env) (deploymentId : Nat) (internalPort : Nat) : Except String String :=
  match env.yourPlatformUrl with
  | some domain =>
    match generateDeploymentUrl env.projectName deploymentId domain env.randoms env.taken with
    | some url => .ok url
    | none => .error "Failed to generate a unique deployment URL even with fallback pattern."
  | none => .ok ("http://localhost:" ++ toString internalPort)

/-- processDeployment.ts catch block: best-effort failed write (the inner
try swallows a database error), then fire-and-forget cleanup.  The
deploymentUrl field is never part of this write: the catch block reads
the outer finalDeploymentUrl, which stays at the empty string because
the success path declares a shadowing local of the same name, and an
empty string is dropped by the or-undefined guard.  internalPort is only
written when it is a non-null, non-zero number. -/
def catchHandler (env : Env) (deploymentId : Nat) (row : Row)
    (dockerfileUsedResult : DockerfileSource) (internalPort : Option Nat)
    (cloned : Bool) (cleanups : List String) (msg : String) (startAttempts : Nat) : RunState :=
  let failedRow :=
    if env.updateFailedOk then
      { row with
          status := .failed
          dockerfileUsed := dockerfileUsedResult
          errorMessage := some msg
          internalPort :=
            match internalPort with
            | some p => if p == 0 then row.internalPort else some p
            | none => row.internalPort }
    else row
  { row := failedRow
    startAttempts := startAttempts
    cloneCleanups := cleanups ++
      (if cloned then [wsl2CloneBaseDir env.homeDir deploymentId] else []) }

/-- processDeployment.ts: the whole pipeline.  Steps run in source order;
the first failing step jumps to the catch handler with whatever state
had been accumulated.  The clone directory cleanup between extraction
and the application start records its target directory. -/
def processDeploymentSteps (env : Env) (deploymentId : Nat) (row0 : Row) : RunState :=
  if env.updateDeployingOk then
    let row1 : Row :=
      { row0 with status := .deploying, logFilePath := some (logFilePathOf env deploymentId) }
    if env.prepOk then
      if env.cloneOk then
        let clonedRepoPath :=
          (cloneRepository env.gitRepoUrl env.homeDir deploymentId).destination
        let imageName := "project-" ++ toString env.projectId ++ "-" ++ toString deploymentId
        match buildProjectImage clonedRepoPath imageName [] env.repo env.buildExitCode
            env.buildStdout env.buildStderr with
        | .error e => catchHandler env deploymentId row1 .unknown none true [] e 0
        | .ok dockerfileUsedResult =>
          if env.extractOk then
            let cleanups := [wsl2CloneBaseDir env.homeDir deploymentId]
            let buildType :=
              if dockerfileUsedResult = .default_classic ∨
                  dockerfileUsedResult = .user_classic_assumed then
                BuildType.classic
              else BuildType.standalone
            match startApplication env.serve deploymentId buildType with
            | .error e =>
              catchHandler env deploymentId row1 dockerfileUsedResult none true cleanups e 1
            | .ok internalPort =>
              match computeUrl env deploymentId internalPort with
              | .error e =>
                catchHandler env deploymentId row1 dockerfileUsedResult (some internalPort)
                  true cleanups e 1
              | .ok finalDeploymentUrl =>
                if env.updateUrlOk then
                  let row2 : Row := { row1 with deploymentUrl := finalDeploymentUrl }
                  if env.yourPlatformUrl.isSome ∧ ¬ env.nginxOk then
                    catchHandler env deploymentId row2 dockerfileUsedResult (some internalPort)
                      true cleanups env.nginxErrMsg 1
                  else if env.updateSuccessOk then
                    { row :=
                        { row2 with
                            status := .success
                            buildOutputPath := some (buildOutputPathOf env deploymentId)
                            deploymentUrl := finalDeploymentUrl
                            internalPort := some internalPort
                            dockerfileUsed := dockerfileUsedResult }
                      startAttempts := 1
                      cloneCleanups := cleanups }
                  else
                    catchHandler env deploymentId row2 dockerfileUsedResult (some internalPort)
                      true cleanups env.dbErrMsg 1
                else
                  catchHandler env deploymentId row1 dockerfileUsedResult (some internalPort)
                    true cleanups env.dbErrMsg 1
          else
            catchHandler env deploymentId row1 dockerfileUsedResult none true [] env.extractErrMsg 0
      else
        catchHandler env deploymentId row1 .unknown none false [] env.cloneErrMsg 0
    else
      catchHandler env deploymentId row1 .unknown none false []
        ("Failed to prepare deployment workspace or change ownership: " ++ env.prepErrMsg) 0
  else
    catchHandler env deploymentId row0 .unknown none false [] env.dbErrMsg 0

/-- processDeployment.ts returns a promise that always resolves: every step
runs inside the outer try, the catch block wraps its own database write
in an inner try that only logs, and the failure-path cleanup promises
carry .catch handlers, so no rejection can escape on any path.  The
Trace records the run state together with that unconditional
resolution. -/
def processDeployment (env : Env) (deploymentId : Nat) (row0 : Row) : Trace :=
  let s := processDeploymentSteps env deploymentId row0
  { row := s.row
    startAttempts := s.startAttempts
    cloneCleanups := s.cloneCleanups
    resolved := true }

/-! Helper lemmas. -/

theorem data_append (s t : String) : (s ++ t).data = s.data ++ t.data := by
  cases s
  cases t
  rfl

theorem ne_empty_of_length_pos (s : String) (h : 0 < s.length) : s ≠ "" := by
  intro hEq
  subst hEq
  simp [String.length] at h

theorem append_ne_empty_left (s t : String) (h : 0 < s.length) : s ++ t ≠ "" := by
  apply ne_empty_of_length_pos
  simp only [String.length_append]
  omega

theorem mintAttemptUrl_ne_empty (b r d : String) : mintAttemptUrl b r d ≠ "" := by
  apply ne_empty_of_length_pos
  simp only [mintAttemptUrl, String.length_append]
  have : (0:Nat) < "https://".length := by decide
  omega

theorem mintLoop_some_ne_empty (base domain : String) (randoms : Nat → String)
    (taken : String → Bool) :
    ∀ fuel attempt url, mintLoop base domain randoms taken attempt fuel = some url → url ≠ "" := by
  intro fuel
  induction fuel with
  | zero => intro attempt url h; simp [mintLoop] at h
  | succ n ih =>
    intro attempt url h
    simp only [mintLoop] at h
    by_cases ht : taken (mintAttemptUrl base (randoms attempt) domain) = true
    · rw [if_pos ht] at h
      exact ih (attempt + 1) url h
    · rw [if_neg ht] at h
      cases h
      exact mintAttemptUrl_ne_empty base (randoms attempt) domain

theorem generateDeploymentUrl_some_ne_empty (projectName : String) (deploymentId : Nat)
    (yourPlatformUrl : String) (randoms : Nat → String) (taken : String → Bool) (url : String)
    (h : generateDeploymentUrl projectName deploymentId yourPlatformUrl randoms taken = some url) :
    url ≠ "" := by
  simp only [generateDeploymentUrl] at h
  cases hm : mintLoop (stripTrailingHyphen (sanitizeForSubdomain projectName 20)) yourPlatformUrl
      randoms taken 0 MAX_URL_GENERATION_ATTEMPTS with
  | some u =>
    rw [hm] at h
    cases h
    exact mintLoop_some_ne_empty _ _ _ _ _ _ _ hm
  | none =>
    rw [hm] at h
    by_cases ht : taken ("https://deploy-" ++ toString deploymentId ++ "." ++ yourPlatformUrl) = true
    · simp [ht] at h
    · simp [ht] at h
      subst h
      apply append_ne_empty_left
      simp only [String.length_append]
      have : (0:Nat) < "https://deploy-".length := by decide
      omega

theorem selectDockerfile_ok_ne_unknown (repoPath : String) (r : RepoFs)
    (dockerfilePath : String) (src : DockerfileSource)
    (h : selectDockerfile repoPath r = .ok (dockerfilePath, src)) : src ≠ .unknown := by
  unfold selectDockerfile at h
  split at h
  · split at h
    · cases h
      split <;> simp
    · cases h
      simp
  · split at h
    · split at h
      · split at h
        · cases h; simp
        · cases h
      · split at h
        · cases h; simp
        · cases h
    · cases h

theorem buildProjectImage_ok_ne_unknown (repoPath imageName : String)
    (buildArgs : List (String × String)) (r : RepoFs) (exitCode : Nat)
    (stdoutBuffer stderrBuffer : String) (src : DockerfileSource)
    (h : buildProjectImage repoPath imageName buildArgs r exitCode stdoutBuffer stderrBuffer =
      .ok src) : src ≠ .unknown := by
  unfold buildProjectImage at h
  cases hs : selectDockerfile repoPath r with
  | error e => rw [hs] at h; cases h
  | ok pr =>
    obtain ⟨dockerfilePathToUse, dockerfileSource⟩ := pr
    rw [hs] at h
    dsimp only at h
    by_cases hc : exitCode = 0
    · rw [if_pos hc] at h
      cases h
      exact selectDockerfile_ok_ne_unknown repoPath r dockerfilePathToUse _ hs
    · rw [if_neg hc] at h
      cases h

/-! Concrete fixtures used by the closed counterexamples and witnesses. -/

/-- A repository with a root Dockerfile and no Next.js signature. -/
def plainDockerRepo : RepoFs :=
  { hasDockerfile := true
    nextConfig := none
    nextConfigReadable := true
    packageJsonNext := false
    defaultStandaloneExists := true
    defaultClassicExists := true }

/-- An oracle environment in which every step succeeds (development mode:
no platform URL configured). -/
def baseEnv : Env :=
  { homeDir := "/home/u"
    baseDeploymentDir := "/api/deployments"
    yourPlatformUrl := none
    projectId := 7
    projectName := "widgets"
    gitRepoUrl := "https://github.com/acme/widgets.git"
    updateDeployingOk := true
    prepOk := true
    prepErrMsg := "EACCES"
    cloneOk := true
    cloneErrMsg := "clone failed"
    repo := plainDockerRepo
    buildExitCode := 0
    buildStdout := ""
    buildStderr := ""
    extractOk := true
    extractErrMsg := "extract failed"
    serve :=
      { probe := fun _ => true
        serverJsExists := true
        packageJsonExists := true
        dotNextExists := true
        pm2ConnectOk := true
        pm2StartOk := true
        pm2Status := "online" }
    randoms := fun _ => "abc12"
    taken := fun _ => false
    updateUrlOk := true
    nginxOk := true
    nginxErrMsg := "nginx reload failed"
    updateSuccessOk := true
    updateFailedOk := true
    dbErrMsg := "db write failed" }

/-- A freshly created Deployment row as the resolver inserts it. -/
def pendingRow : Row :=
  { status := .pending
    logFilePath := none
    deploymentUrl := ""
    internalPort := none
    buildOutputPath := none
    dockerfileUsed := .unknown
    errorMessage := none }

/-- A row in the terminal success state. -/
def successRow : Row :=
  { status := .success
    logFilePath := some "/api/deployments/1/deployment-1.log"
    deploymentUrl := "https://widgets-old01.nextlivenow.app"
    internalPort := some 4001
    buildOutputPath := some "/api/deployments/1/build-output"
    dockerfileUsed := .user
    errorMessage := none }

/-! Lemmas about findFreePort. -/

theorem findFreePortAux_some (probe : Nat → Bool) :
    ∀ fuel startPort p, findFreePortAux probe startPort fuel = some p →
      startPort ≤ p ∧ p < startPort + fuel ∧ probe p = true ∧
        ∀ q, startPort ≤ q → q < p → probe q = false := by
  intro fuel
  induction fuel with
  | zero =>
    intro s p h
    simp [findFreePortAux] at h
  | succ n ih =>
    intro s p h
    simp only [findFreePortAux] at h
    cases hp : probe s with
    | true =>
      rw [hp] at h
      simp at h
      subst h
      exact ⟨le_refl _, by omega, hp, fun q hq1 hq2 => absurd hq2 (by omega)⟩
    | false =>
      rw [hp] at h
      simp at h
      obtain ⟨h1, h2, h3, h4⟩ := ih (s + 1) p h
      refine ⟨by omega, by omega, h3, ?_⟩
      intro q hq1 hq2
      rcases Nat.lt_or_ge q (s + 1) with hc | hc
      · have hqs : q = s := by omega
        subst hqs
        exact hp
      · exact h4 q hc hq2

theorem findFreePortAux_none (probe : Nat → Bool) :
    ∀ fuel startPort, (∀ q, startPort ≤ q → q < startPort + fuel → probe q = false) →
      findFreePortAux probe startPort fuel = none := by
  intro fuel
  induction fuel with
  | zero => intro s h; rfl
  | succ n ih =>
    intro s h
    simp only [findFreePortAux]
    rw [h s (le_refl _) (by omega)]
    simp only [Bool.false_eq_true, if_false]
    exact ih (s + 1) (fun q hq1 hq2 => h q (by omega) (by omega))

/-- C5: the port allocator scans the closed range in ascending order and
returns the first port whose probe reports free; when no port in the
range probes free — in particular when the range is empty because the
start exceeds the end — it fails with the no-free-ports error and
returns no port. -/
theorem C5_findFreePort_first_free (probe : Nat → Bool) (startPort endPort : Nat) :
    (∀ p, findFreePort probe startPort endPort = .ok p →
        startPort ≤ p ∧ p ≤ endPort ∧ probe p = true ∧
          ∀ q, startPort ≤ q → q < p → probe q = false) ∧
      ((∀ q, startPort ≤ q → q ≤ endPort → probe q = false) →
        findFreePort probe startPort endPort =
          .error ("No free ports found in range " ++ toString startPort ++ "-" ++
            toString endPort)) ∧
      (endPort < startPort →
        findFreePort probe startPort endPort =
          .error ("No free ports found in range " ++ toString startPort ++ "-" ++
            toString endPort)) := by
  refine ⟨?_, ?_, ?_⟩
  · intro p h
    unfold findFreePort at h
    cases hm : findFreePortAux probe startPort (endPort + 1 - startPort) with
    | none => rw [hm] at h; cases h
    | some q =>
      rw [hm] at h
      cases h
      obtain ⟨h1, h2, h3, h4⟩ := findFreePortAux_some probe _ _ _ hm
      exact ⟨h1, by omega, h3, h4⟩
  · intro h
    unfold findFreePort
    rw [findFreePortAux_none probe _ _ (fun q hq1 hq2 => h q hq1 (by omega))]
  · intro h
    unfold findFreePort
    rw [findFreePortAux_none probe _ _ (fun q hq1 hq2 => absurd hq2 (by omega))]

/-- C5 witness: the theorem instantiated at concrete inputs: in the range
4001..4003 with only ports from 4002 up free, 4002 is returned; a fully
occupied range and the empty range 10..5 both yield the error. -/
theorem C5_findFreePort_first_free_witness :
    (4001 ≤ 4002 ∧ 4002 ≤ 4003 ∧ (4002 ≤ 4002) = True) ∧
      findFreePort (fun _ => false) 4001 4003 =
        .error ("No free ports found in range " ++ toString 4001 ++ "-" ++ toString 4003) ∧
      findFreePort (fun _ => true) 10 5 =
        .error ("No free ports found in range " ++ toString 10 ++ "-" ++ toString 5) := by
  refine ⟨?_, ?_, ?_⟩
  · have h := (C5_findFreePort_first_free (fun p => decide (4002 ≤ p)) 4001 4003).1 4002 rfl
    exact ⟨h.1, h.2.1, by simp⟩
  · exact (C5_findFreePort_first_free (fun _ => false) 4001 4003).2.1 (fun q hq1 hq2 => rfl)
  · exact (C5_findFreePort_first_free (fun _ => true) 10 5).2.2 (by omega)

/-- C2: for deployment 1 with home directory /home/u, gitService.ts clones
into /home/u/.next-live-clones/deployment-1-repo/repository, while
processDeployment.ts hands /home/u/.code-catalyst-clones/deployment-1-repo
to cleanUpCloneDirectory — a different directory that is not a path
prefix of the clone destination, so the removal never touches the clone
tree the run just created. -/
theorem C2_clone_cleanup_mismatch :
    (cloneRepository "https://github.com/acme/widgets.git" "/home/u" 1).destination =
        "/home/u/.next-live-clones/deployment-1-repo/repository" ∧
      wsl2CloneBaseDir "/home/u" 1 = "/home/u/.code-catalyst-clones/deployment-1-repo" ∧
      wsl2CloneBaseDir "/home/u" 1 ≠ cloneDir "/home/u" 1 ∧
      listStartsWith (wsl2CloneBaseDir "/home/u" 1).data
        (cloneRepository "https://github.com/acme/widgets.git" "/home/u" 1).destination.data =
        false ∧
      (processDeployment baseEnv 1 pendingRow).cloneCleanups = [wsl2CloneBaseDir "/home/u" 1] := by
  refine ⟨by decide, by decide, by decide, by decide, by decide⟩

/-- C3 counterexample: for a clone request whose URL starts with
https://github.com/, the URL handed to git is exactly the input URL;
no oauth2 credential is injected and no token is resolved, so the
claimed authenticated rewrite does not happen. -/
theorem C3_counterexample :
    listStartsWith "https://github.com/".data
        "https://github.com/acme/widgets.git".data = true ∧
      (cloneRepository "https://github.com/acme/widgets.git" "/home/u" 1).urlArg =
        "https://github.com/acme/widgets.git" ∧
      strIncludes (cloneRepository "https://github.com/acme/widgets.git" "/home/u" 1).urlArg
        "oauth2:" = false := by
  refine ⟨by decide, by decide, by decide⟩

/-- C3 amended: every repository URL — github.com or any other host — is
passed to git unchanged; the Git Fetcher resolves no access token and
performs no URL rewriting. -/
theorem C3_amended_url_passthrough (repoUrl homeDir : String) (deploymentId : Nat) :
    (cloneRepository repoUrl homeDir deploymentId).urlArg = repoUrl := rfl

/-- C4: when the repository has a root Dockerfile the planner selects it,
and the recorded source is: with a Next.js signature, user exactly when
the (readable) config content declares standalone output and
user_classic_assumed otherwise (also when the signature comes only from
package.json and no config file exists); without a Next.js signature,
user. -/
theorem C4_user_dockerfile_classification (repoPath : String) (r : RepoFs)
    (hDocker : r.hasDockerfile = true) (hRead : r.nextConfigReadable = true) :
    selectDockerfile repoPath r =
      .ok (userDockerfilePath repoPath,
        if isNextProject r then
          (match r.nextConfig with
           | some c => if declaresStandalone c then .user else .user_classic_assumed
           | none => .user_classic_assumed)
        else .user) := by
  unfold selectDockerfile configSaysStandalone
  rw [if_pos hDocker]
  cases hc : r.nextConfig with
  | none =>
    by_cases hp : r.packageJsonNext = true
    · have hNext : isNextProject r = true := by unfold isNextProject; rw [hc, hp]; rfl
      simp [hNext, hc]
    · have hNext : isNextProject r = false := by
        unfold isNextProject
        rw [hc]
        simpa using hp
      simp [hNext, hc]
  | some c =>
    have hNext : isNextProject r = true := by unfold isNextProject; rw [hc]; rfl
    simp [hNext, hc, hRead]

/-- A repository with a root Dockerfile and a standalone-declaring Next.js
config. -/
def standaloneNextRepo : RepoFs :=
  { hasDockerfile := true
    nextConfig := some "output: \"standalone\""
    nextConfigReadable := true
    packageJsonNext := true
    defaultStandaloneExists := true
    defaultClassicExists := true }

/-- A repository with a root Dockerfile and a Next.js config that does not
declare standalone output. -/
def classicNextRepo : RepoFs :=
  { hasDockerfile := true
    nextConfig := some "reactStrictMode: true"
    nextConfigReadable := true
    packageJsonNext := true
    defaultStandaloneExists := true
    defaultClassicExists := true }

/-- C4 witness: the classification theorem applied to two concrete
repositories, one declaring standalone output (classified user) and one
not (classified user_classic_assumed). -/
theorem C4_user_dockerfile_classification_witness :
    selectDockerfile "/clone" standaloneNextRepo =
        .ok (userDockerfilePath "/clone", .user) ∧
      selectDockerfile "/clone" classicNextRepo =
        .ok (userDockerfilePath "/clone", .user_classic_assumed) := by
  constructor
  · rw [C4_user_dockerfile_classification "/clone" standaloneNextRepo rfl rfl]
    rfl
  · rw [C4_user_dockerfile_classification "/clone" classicNextRepo rfl rfl]
    rfl

/-! Lemmas about the minting loop and the URL of a run. -/

theorem mintLoop_first_free (base domain : String) (randoms : Nat → String)
    (taken : String → Bool) (attempt fuel : Nat)
    (h : taken (mintAttemptUrl base (randoms attempt) domain) = false) :
    mintLoop base domain randoms taken attempt (fuel + 1) =
      some (mintAttemptUrl base (randoms attempt) domain) := by
  simp only [mintLoop]
  rw [h]
  simp

/-- C6 amended: when sanitization of the project name yields the empty
string and no candidate URL is taken, the minter does not fall back to
the deploy-id pattern: it mints a hostname whose label starts with a
bare hyphen, built from the empty sanitized name and the first random
suffix. -/
theorem C6_amended_empty_name_minted (name : String) (deploymentId : Nat) (domain : String)
    (randoms : Nat → String) (taken : String → Bool)
    (hSan : sanitizeForSubdomain name 20 = "")
    (hFree : ∀ u, taken u = false) :
    generateDeploymentUrl name deploymentId domain randoms taken =
      some ("https://-" ++ randoms 0 ++ "." ++ domain) := by
  unfold generateDeploymentUrl
  rw [hSan]
  have hs : stripTrailingHyphen "" = "" := rfl
  rw [hs]
  dsimp only
  rw [show MAX_URL_GENERATION_ATTEMPTS = 4 + 1 from rfl]
  rw [mintLoop_first_free "" domain randoms taken 0 4 (hFree _)]
  have h1 : ("https://" ++ "") ++ "-" = "https://-" := rfl
  unfold mintAttemptUrl
  rw [h1]

/-- C6 counterexample: a project name of only disallowed characters
sanitizes to the empty string, yet with no collisions the minter
produces the malformed hostname -abc12.nextlivenow.app instead of
falling back to the deploy-7 pattern. -/
theorem C6_counterexample :
    sanitizeForSubdomain "???" 20 = "" ∧
      generateDeploymentUrl "???" 7 "nextlivenow.app" (fun _ => "abc12") (fun _ => false) =
        some "https://-abc12.nextlivenow.app" ∧
      "https://-abc12.nextlivenow.app" ≠ "https://deploy-7.nextlivenow.app" := by
  refine ⟨by decide, ?_, by decide⟩
  rfl

/-- C6 witness: the amended theorem applied to the concrete all-disallowed
name, with both hypotheses discharged by evaluation. -/
theorem C6_amended_empty_name_minted_witness :
    generateDeploymentUrl "???" 7 "nextlivenow.app" (fun _ => "abc12") (fun _ => false) =
      some "https://-abc12.nextlivenow.app" := by
  have h := C6_amended_empty_name_minted "???" 7 "nextlivenow.app" (fun _ => "abc12")
    (fun _ => false) (by decide) (fun u => rfl)
  rw [h]
  rfl

/-! Lemmas about whole runs of processDeployment. -/

theorem processDeployment_resolved (env : Env) (deploymentId : Nat) (row0 : Row) :
    (processDeployment env deploymentId row0).resolved = true := rfl

theorem processDeployment_cloneFail_fields (env : Env) (deploymentId : Nat) (row0 : Row)
    (h1 : env.updateDeployingOk = true) (h2 : env.prepOk = true)
    (h3 : env.cloneOk = false) (h4 : env.updateFailedOk = true) :
    (processDeployment env deploymentId row0).row.status = .failed ∧
      (processDeployment env deploymentId row0).row.errorMessage = some env.cloneErrMsg ∧
      (processDeployment env deploymentId row0).row.internalPort = row0.internalPort := by
  refine ⟨?_, ?_, ?_⟩ <;> simp [processDeployment, processDeploymentSteps, catchHandler, h1, h2, h3, h4]

theorem processDeployment_cloneFail_noFailedWrite (env : Env) (deploymentId : Nat) (row0 : Row)
    (h1 : env.updateDeployingOk = true) (h2 : env.prepOk = true)
    (h3 : env.cloneOk = false) (h4 : env.updateFailedOk = false) :
    (processDeployment env deploymentId row0).row.status = .deploying := by
  simp [processDeployment, processDeploymentSteps, catchHandler, h1, h2, h3, h4]

theorem processDeployment_firstWriteFail (env : Env) (deploymentId : Nat) (row0 : Row)
    (h1 : env.updateDeployingOk = false) (h4 : env.updateFailedOk = false) :
    (processDeployment env deploymentId row0).row = row0 := by
  simp [processDeployment, processDeploymentSteps, catchHandler, h1, h4]

/-- C7 amended: the state machine stores the raised error message verbatim
in errorMessage — no length bound is applied and no end-trimming is
performed anywhere between the raising step and the database write
(shown here for a clone failure carrying an arbitrary message). -/
theorem C7_amended_error_stored_verbatim (env : Env) (deploymentId : Nat) (row0 : Row)
    (h1 : env.updateDeployingOk = true) (h2 : env.prepOk = true)
    (h3 : env.cloneOk = false) (h4 : env.updateFailedOk = true) :
    (processDeployment env deploymentId row0).row.errorMessage = some env.cloneErrMsg :=
  (processDeployment_cloneFail_fields env deploymentId row0 h1 h2 h3 h4).2.1

/-- C7 witness: the amended theorem applied to a concrete failing run,
whose stored message is exactly the raised one — including its trailing
whitespace, which end-trimming would have removed. -/
theorem C7_amended_error_stored_verbatim_witness :
    (processDeployment { baseEnv with cloneOk := false, cloneErrMsg := "clone failed   " }
        1 pendingRow).row.errorMessage = some "clone failed   " := by
  exact C7_amended_error_stored_verbatim
    { baseEnv with cloneOk := false, cloneErrMsg := "clone failed   " } 1 pendingRow
    rfl rfl rfl rfl

/-- C7 counterexample: no bound exists on the length of the stored
errorMessage of a failed deployment: for any proposed bound there is a
run whose stored message is longer, so the write is not truncated (and
a fortiori not end-trimmed to any bounded form). -/
theorem C7_counterexample :
    ¬ ∃ bound : Nat, ∀ (env : Env) (deploymentId : Nat) (row0 : Row),
        ((processDeployment env deploymentId row0).row.errorMessage.getD "").length ≤ bound := by
  rintro ⟨bound, h⟩
  have he := (processDeployment_cloneFail_fields
    { baseEnv with cloneOk := false, cloneErrMsg := String.mk (List.replicate (bound + 1) 'a') }
    1 pendingRow rfl rfl rfl rfl).2.1
  have hlen := h
    { baseEnv with cloneOk := false, cloneErrMsg := String.mk (List.replicate (bound + 1) 'a') }
    1 pendingRow
  rw [he] at hlen
  simp only [Option.getD_some] at hlen
  have hml : (String.mk (List.replicate (bound + 1) 'a')).length = bound + 1 := by
    simp [String.length]
  rw [hml] at hlen
  omega

/-! Branch analysis of a whole run. -/

theorem steps_startAttempts_le_one (env : Env) (deploymentId : Nat) (row0 : Row) :
    (processDeploymentSteps env deploymentId row0).startAttempts ≤ 1 := by
  simp only [processDeploymentSteps]
  by_cases h1 : env.updateDeployingOk = true
  case neg => rw [if_neg h1]; simp [catchHandler]
  rw [if_pos h1]
  by_cases h2 : env.prepOk = true
  case neg => rw [if_neg h2]; simp [catchHandler]
  rw [if_pos h2]
  by_cases h3 : env.cloneOk = true
  case neg => rw [if_neg h3]; simp [catchHandler]
  rw [if_pos h3]
  cases hb : buildProjectImage (cloneRepository env.gitRepoUrl env.homeDir deploymentId).destination
      ("project-" ++ toString env.projectId ++ "-" ++ toString deploymentId) [] env.repo
      env.buildExitCode env.buildStdout env.buildStderr with
  | error e => simp only [hb]; simp [catchHandler]
  | ok dfu =>
    simp only [hb]
    by_cases h4 : env.extractOk = true
    case neg => rw [if_neg h4]; simp [catchHandler]
    rw [if_pos h4]
    cases hst : startApplication env.serve deploymentId
        (if dfu = DockerfileSource.default_classic ∨ dfu = DockerfileSource.user_classic_assumed
          then BuildType.classic else BuildType.standalone) with
    | error e => simp only [hst]; simp [catchHandler]
    | ok port =>
      simp only [hst]
      cases hu : computeUrl env deploymentId port with
      | error e => simp only [hu]; simp [catchHandler]
      | ok url =>
        simp only [hu]
        by_cases h5 : env.updateUrlOk = true
        case neg => rw [if_neg h5]; simp [catchHandler]
        rw [if_pos h5]
        by_cases h6 : env.yourPlatformUrl.isSome = true ∧ ¬ env.nginxOk = true
        case pos => rw [if_pos h6]; simp [catchHandler]
        rw [if_neg h6]
        by_cases h7 : env.updateSuccessOk = true
        case neg => rw [if_neg h7]; simp [catchHandler]
        rw [if_pos h7]

/-- C1 amended: the state machine never retries the App Supervisor step:
startApplication is invoked at most once per run, so its first failure
is terminal and no fresh port is allocated for a second attempt. -/
theorem C1_amended_no_retry (env : Env) (deploymentId : Nat) (row0 : Row) :
    (processDeployment env deploymentId row0).startAttempts ≤ 1 :=
  steps_startAttempts_le_one env deploymentId row0

/-- An environment in which PM2 starts the process but it never reaches the
online status. -/
def envPm2Errored : Env :=
  { baseEnv with
      serve :=
        { probe := fun _ => true
          serverJsExists := true
          packageJsonExists := true
          dotNextExists := true
          pm2ConnectOk := true
          pm2StartOk := true
          pm2Status := "errored" } }

/-- C1 counterexample: when the App Supervisor step fails, the run marks
the deployment failed after exactly one startApplication attempt — it is
not retried two more times with fresh ports. -/
theorem C1_counterexample :
    (processDeployment envPm2Errored 1 pendingRow).startAttempts = 1 ∧
      (processDeployment envPm2Errored 1 pendingRow).row.status = .failed := by
  refine ⟨by decide, by decide⟩

/-! The success invariant (C8). -/

/-- Invariant 2 of the data model: a successful row carries a non-empty
URL, an internal port, a non-empty build output path and a known
Dockerfile source. -/
def successInvariant (row : Row) : Prop :=
  row.status = .success →
    row.deploymentUrl ≠ "" ∧ row.internalPort.isSome = true ∧
      (∃ p, row.buildOutputPath = some p ∧ p ≠ "") ∧ row.dockerfileUsed ≠ .unknown

theorem successInvariant_of_status (row : Row) (h : row.status ≠ .success) :
    successInvariant row :=
  fun hs => absurd hs h

theorem successInvariant_catchHandler (env : Env) (deploymentId : Nat) (row : Row)
    (dfu : DockerfileSource) (ip : Option Nat) (cloned : Bool) (cleanups : List String)
    (msg : String) (sa : Nat) (h : successInvariant row) :
    successInvariant (catchHandler env deploymentId row dfu ip cloned cleanups msg sa).row := by
  by_cases hf : env.updateFailedOk = true
  · intro hs
    simp [catchHandler, hf] at hs
  · simp only [catchHandler, hf]
    simpa using h

theorem computeUrl_ok_ne_empty (env : Env) (deploymentId : Nat) (port : Nat) (url : String)
    (h : computeUrl env deploymentId port = .ok url) : url ≠ "" := by
  unfold computeUrl at h
  cases hp : env.yourPlatformUrl with
  | none =>
    rw [hp] at h
    cases h
    apply append_ne_empty_left
    decide
  | some domain =>
    rw [hp] at h
    dsimp only at h
    cases hg : generateDeploymentUrl env.projectName deploymentId domain env.randoms env.taken with
    | none => rw [hg] at h; cases h
    | some u =>
      rw [hg] at h
      cases h
      exact generateDeploymentUrl_some_ne_empty _ _ _ _ _ _ hg

theorem buildOutputPathOf_ne_empty (env : Env) (deploymentId : Nat) :
    buildOutputPathOf env deploymentId ≠ "" := by
  apply ne_empty_of_length_pos
  simp only [buildOutputPathOf, deploymentWorkingDir, String.length_append]
  have h : (0:Nat) < "/build-output".length := by decide
  omega

/-- C8: running the state machine preserves the success invariant: whenever
the resulting row has status success, its deploymentUrl, internalPort
and buildOutputPath are populated and non-empty and its dockerfileUsed
is not unknown. -/
theorem C8_success_invariant (env : Env) (deploymentId : Nat) (row0 : Row)
    (h0 : successInvariant row0) :
    successInvariant (processDeployment env deploymentId row0).row := by
  show successInvariant (processDeploymentSteps env deploymentId row0).row
  simp only [processDeploymentSteps]
  by_cases h1 : env.updateDeployingOk = true
  case neg =>
    rw [if_neg h1]
    exact successInvariant_catchHandler _ _ _ _ _ _ _ _ _ h0
  rw [if_pos h1]
  by_cases h2 : env.prepOk = true
  case neg =>
    rw [if_neg h2]
    exact successInvariant_catchHandler _ _ _ _ _ _ _ _ _ (successInvariant_of_status _ (by simp))
  rw [if_pos h2]
  by_cases h3 : env.cloneOk = true
  case neg =>
    rw [if_neg h3]
    exact successInvariant_catchHandler _ _ _ _ _ _ _ _ _ (successInvariant_of_status _ (by simp))
  rw [if_pos h3]
  cases hb : buildProjectImage (cloneRepository env.gitRepoUrl env.homeDir deploymentId).destination
      ("project-" ++ toString env.projectId ++ "-" ++ toString deploymentId) [] env.repo
      env.buildExitCode env.buildStdout env.buildStderr with
  | error e =>
    simp only [hb]
    exact successInvariant_catchHandler _ _ _ _ _ _ _ _ _ (successInvariant_of_status _ (by simp))
  | ok dfu =>
    simp only [hb]
    by_cases h4 : env.extractOk = true
    case neg =>
      rw [if_neg h4]
      exact successInvariant_catchHandler _ _ _ _ _ _ _ _ _ (successInvariant_of_status _ (by simp))
    rw [if_pos h4]
    cases hst : startApplication env.serve deploymentId
        (if dfu = DockerfileSource.default_classic ∨ dfu = DockerfileSource.user_classic_assumed
          then BuildType.classic else BuildType.standalone) with
    | error e =>
      simp only [hst]
      exact successInvariant_catchHandler _ _ _ _ _ _ _ _ _ (successInvariant_of_status _ (by simp))
    | ok port =>
      simp only [hst]
      cases hu : computeUrl env deploymentId port with
      | error e =>
        simp only [hu]
        exact successInvariant_catchHandler _ _ _ _ _ _ _ _ _
          (successInvariant_of_status _ (by simp))
      | ok url =>
        simp only [hu]
        by_cases h5 : env.updateUrlOk = true
        case neg =>
          rw [if_neg h5]
          exact successInvariant_catchHandler _ _ _ _ _ _ _ _ _
            (successInvariant_of_status _ (by simp))
        rw [if_pos h5]
        by_cases h6 : env.yourPlatformUrl.isSome = true ∧ ¬ env.nginxOk = true
        case pos =>
          rw [if_pos h6]
          exact successInvariant_catchHandler _ _ _ _ _ _ _ _ _
            (successInvariant_of_status _ (by simp))
        rw [if_neg h6]
        by_cases h7 : env.updateSuccessOk = true
        case neg =>
          rw [if_neg h7]
          exact successInvariant_catchHandler _ _ _ _ _ _ _ _ _
            (successInvariant_of_status _ (by simp))
        rw [if_pos h7]
        intro _
        refine ⟨computeUrl_ok_ne_empty env deploymentId port url hu, rfl,
          ⟨buildOutputPathOf env deploymentId, rfl, buildOutputPathOf_ne_empty env deploymentId⟩,
          buildProjectImage_ok_ne_unknown _ _ _ _ _ _ _ _ hb⟩

/-- C8 witness: the invariant theorem applied to a concrete happy-path run,
which does end in status success. -/
theorem C8_success_invariant_witness :
    (processDeployment baseEnv 1 pendingRow).row.status = .success ∧
      successInvariant (processDeployment baseEnv 1 pendingRow).row := by
  refine ⟨by decide, ?_⟩
  exact C8_success_invariant baseEnv 1 pendingRow (successInvariant_of_status pendingRow (by decide))

/-! Re-running terminal rows (C9) and resolution semantics (C10). -/

/-- An environment whose clone step fails and whose failed-status write
succeeds. -/
def envCloneFail : Env :=
  { baseEnv with cloneOk := false }

/-- C9 counterexample: re-running the deployment task for a row that is
already in the terminal success state mutates the row — there is no
status check and no short-circuit before the first database write. -/
theorem C9_counterexample :
    successRow.status = .success ∧
      (processDeployment envCloneFail 1 successRow).row ≠ successRow := by
  refine ⟨by decide, by decide⟩

/-- C9 amended: the worker does not short-circuit on terminal rows:
re-running the task for a row already in status success re-enters the
pipeline, overwrites the status (to deploying, then to the outcome of
the re-run — here failed), and thereby mutates the row. -/
theorem C9_amended_rerun_mutates (env : Env) (deploymentId : Nat) (row0 : Row)
    (hrow : row0.status = .success)
    (h1 : env.updateDeployingOk = true) (h2 : env.prepOk = true)
    (h3 : env.cloneOk = false) (h4 : env.updateFailedOk = true) :
    (processDeployment env deploymentId row0).row.status = .failed ∧
      (processDeployment env deploymentId row0).row ≠ row0 := by
  obtain ⟨hst, -, -⟩ := processDeployment_cloneFail_fields env deploymentId row0 h1 h2 h3 h4
  refine ⟨hst, fun hEq => ?_⟩
  rw [hEq, hrow] at hst
  cases hst

/-- C9 witness: the amended theorem applied to the concrete success row and
failing re-run. -/
theorem C9_amended_rerun_mutates_witness :
    (processDeployment envCloneFail 1 successRow).row.status = .failed ∧
      (processDeployment envCloneFail 1 successRow).row ≠ successRow := by
  exact C9_amended_rerun_mutates envCloneFail 1 successRow rfl rfl rfl rfl rfl

/-- An environment in which both the deploying write and the failed write
throw. -/
def envBothWritesFail : Env :=
  { baseEnv with updateDeployingOk := false, updateFailedOk := false }

/-- An environment in which the clone fails and the failed write throws. -/
def envCloneFailNoWrite : Env :=
  { baseEnv with cloneOk := false, updateFailedOk := false }

/-- C10 counterexample: when the very first database write (the transition
to deploying) throws and the failed write also throws, the promise still
resolves but the row remains in status pending — not deploying as the
claim states for the pathological case. -/
theorem C10_counterexample :
    (processDeployment envBothWritesFail 1 pendingRow).resolved = true ∧
      (processDeployment envBothWritesFail 1 pendingRow).row.status = .pending ∧
      Status.pending ≠ Status.deploying := by
  refine ⟨rfl, by decide, by decide⟩

/-- C10 amended: the promise returned by processDeployment always resolves;
when the write of the failed status itself throws the row keeps its last
persisted status: the original status when the transition to deploying
also failed to persist, and deploying when that transition persisted
(shown for a clone-step failure). -/
theorem C10_amended_resolution (env : Env) (deploymentId : Nat) (row0 : Row) :
    (processDeployment env deploymentId row0).resolved = true ∧
      (env.updateDeployingOk = false → env.updateFailedOk = false →
        (processDeployment env deploymentId row0).row = row0) ∧
      (env.updateDeployingOk = true → env.prepOk = true → env.cloneOk = false →
        env.updateFailedOk = false →
        (processDeployment env deploymentId row0).row.status = .deploying) :=
  ⟨processDeployment_resolved env deploymentId row0,
   fun ha hb => processDeployment_firstWriteFail env deploymentId row0 ha hb,
   fun ha hb hc hd => processDeployment_cloneFail_noFailedWrite env deploymentId row0 ha hb hc hd⟩

/-- C10 witness: the amended theorem applied to the two concrete
pathological environments. -/
theorem C10_amended_resolution_witness :
    (processDeployment envBothWritesFail 1 pendingRow).row = pendingRow ∧
      (processDeployment envCloneFailNoWrite 1 pendingRow).row.status = .deploying ∧
      (processDeployment envCloneFailNoWrite 1 pendingRow).resolved = true := by
  exact ⟨(C10_amended_resolution envBothWritesFail 1 pendingRow).2.1 rfl rfl,
    (C10_amended_resolution envCloneFailNoWrite 1 pendingRow).2.2 rfl rfl rfl rfl,
    (C10_amended_resolution envCloneFailNoWrite 1 pendingRow).1⟩

end NextLive
